import Mathlib

/-!
Shallow embedding of `library/grafana_org.py`: an Ansible module that
reconciles the existence of a Grafana organization.  The module performs a
lookup by name (`grafana_org_exists`), then — depending on `state`
(`present`/`absent`) and Ansible's check mode — at most one mutation call
(`grafana_org_create` or `grafana_org_delete`), and reports a result
dictionary `{org_id, org_name, msg, changed}` through `exit_json`, or a
fatal failure through `fail_json` when an unexpected exception escapes.

The HTTP transport (`fetch_url`) is modelled as an oracle: each endpoint's
response is a `FetchResult` holding the optional readable response object
(whose body may fail to parse as JSON), the HTTP status from `info`, and
the optional `info["body"]`.  JSON bodies are modelled by `JsonObj`, a
record of the only keys the module ever reads (`id`, `name`, `orgId`,
`message`); reading an absent key raises a `KeyError`, modelled — like a
`json.loads` failure — as `Except.error` carrying the exception text.
-/

set_option autoImplicit false

/-- A parsed JSON body, restricted to the keys the module reads:
`body["id"]`, `body["name"]`, `body["orgId"]`, `body["message"]`.
A `none` field means the key is absent from the object. -/
structure JsonObj where
  id : Option Int
  name : Option String
  orgId : Option Int
  message : Option String
  deriving Repr, DecidableEq

/-- Python `body["id"]`: the value, or a `KeyError` exception. -/
def JsonObj.getId (b : JsonObj) : Except String Int :=
  match b.id with
  | some v => Except.ok v
  | none => Except.error "KeyError: id"

/-- Python `body["name"]`: the value, or a `KeyError` exception. -/
def JsonObj.getName (b : JsonObj) : Except String String :=
  match b.name with
  | some v => Except.ok v
  | none => Except.error "KeyError: name"

/-- Python `body["orgId"]`: the value, or a `KeyError` exception. -/
def JsonObj.getOrgId (b : JsonObj) : Except String Int :=
  match b.orgId with
  | some v => Except.ok v
  | none => Except.error "KeyError: orgId"

/-- Python `body["message"]`: the value, or a `KeyError` exception. -/
def JsonObj.getMessage (b : JsonObj) : Except String String :=
  match b.message with
  | some v => Except.ok v
  | none => Except.error "KeyError: message"

deriving instance DecidableEq for Except

/-- What one `fetch_url` call yields.  `r` is the readable response object:
`none` models a connection-level failure with no response; `some parsed`
models a response whose `r.read()` bytes `json.loads` to `parsed`
(`Except.error` = malformed JSON raising `JSONDecodeError`).  `status` is
`info["status"]`; `infoBody` is `info["body"]` when that key is present,
again already passed through `json.loads`. -/
structure FetchResult where
  r : Option (Except String JsonObj)
  status : Int
  infoBody : Option (Except String JsonObj)
  deriving Repr, DecidableEq

/-- The body-selection logic shared by all three API helpers:
`json.loads(r.read())` when `r is not None`, else
`json.loads(info.get("body", fallback))` where `fallback` is the
function-specific constant JSON literal (which always parses). -/
def loadsBody (res : FetchResult) (fallback : JsonObj) : Except String JsonObj :=
  match res.r with
  | some parsed => parsed
  | none =>
    match res.infoBody with
    | some parsed => parsed
    | none => Except.ok fallback

/-- The fallback body of `grafana_org_exists`:
`json.loads(b'\x7b"message": "Cannot search organization"\x7d')`. -/
def fallbackSearchBody : JsonObj :=
  ⟨none, none, none, some "Cannot search organization"⟩

/-- The fallback body of `grafana_org_create`. -/
def fallbackCreateBody : JsonObj :=
  ⟨none, none, none, some "Organization could not be created"⟩

/-- The fallback body of `grafana_org_delete`. -/
def fallbackDeleteBody : JsonObj :=
  ⟨none, none, none, some "Organization could not be deleted"⟩

/-- The `GrafanaOrganization` value produced by a `set(...)` call.  Every
`set` call in the module supplies `organization_name`,
`organization_status` and `message`; `organization_id` defaults to `-1`
when omitted. -/
structure GrafanaOrganization where
  organization_id : Int
  organization_name : String
  organization_status : Int
  message : String
  deriving Repr, DecidableEq

/-- `grafana_org_exists(module, grafana_url, org_name, headers)`:
GET `/api/orgs/name/{org_name}`.  On status 200 the result carries
`body["id"]`, `body["name"]` and the literal message
`"Organization exists"`; otherwise the organization defaults to id `-1`
with `body["message"]` as the message.  `Except.error` models an
uncaught exception (malformed JSON or a missing key). -/
def grafana_org_exists (res : FetchResult) (org_name : String) :
    Except String GrafanaOrganization :=
  match loadsBody res fallbackSearchBody with
  | Except.error e => Except.error e
  | Except.ok body =>
    if res.status = 200 then
      match body.getId with
      | Except.error e => Except.error e
      | Except.ok i =>
        match body.getName with
        | Except.error e => Except.error e
        | Except.ok n => Except.ok ⟨i, n, res.status, "Organization exists"⟩
    else
      match body.getMessage with
      | Except.error e => Except.error e
      | Except.ok m => Except.ok ⟨-1, org_name, res.status, m⟩

/-- `grafana_org_create(module, grafana_url, org_name, headers)`:
POST `/api/orgs` with payload `\x7bname: org_name\x7d`.  On status 200 the
result carries `body["orgId"]`, the supplied `org_name` and
`body["message"]`; otherwise id defaults to `-1` with `body["message"]`
as the message. -/
def grafana_org_create (res : FetchResult) (org_name : String) :
    Except String GrafanaOrganization :=
  match loadsBody res fallbackCreateBody with
  | Except.error e => Except.error e
  | Except.ok body =>
    if res.status = 200 then
      match body.getOrgId with
      | Except.error e => Except.error e
      | Except.ok oid =>
        match body.getMessage with
        | Except.error e => Except.error e
        | Except.ok m => Except.ok ⟨oid, org_name, res.status, m⟩
    else
      match body.getMessage with
      | Except.error e => Except.error e
      | Except.ok m => Except.ok ⟨-1, org_name, res.status, m⟩

/-- `grafana_org_delete(module, grafana_url, org_name, org_id, headers)`:
DELETE `/api/orgs/{org_id}`.  On status 200 the result echoes the supplied
`org_id` and `org_name` with `body["message"]`; otherwise id defaults to
`-1` with `body["message"]` as the message. -/
def grafana_org_delete (res : FetchResult) (org_name : String) (org_id : Int) :
    Except String GrafanaOrganization :=
  match loadsBody res fallbackDeleteBody with
  | Except.error e => Except.error e
  | Except.ok body =>
    if res.status = 200 then
      match body.getMessage with
      | Except.error e => Except.error e
      | Except.ok m => Except.ok ⟨org_id, org_name, res.status, m⟩
    else
      match body.getMessage with
      | Except.error e => Except.error e
      | Except.ok m => Except.ok ⟨-1, org_name, res.status, m⟩

/-- The transport oracle: the response each endpoint would give.  At most
one call per endpoint occurs per invocation, so one fixed response per
endpoint is a faithful model. -/
structure Transport where
  getResp : FetchResult
  createResp : FetchResult
  deleteResp : FetchResult
  deriving Repr, DecidableEq

/-- One network call issued through `fetch_url`, for tracing. -/
inductive ApiCall where
  | observe (org_name : String)
  | create (org_name : String)
  | delete (org_id : Int)
  deriving Repr, DecidableEq

/-- Whether a call is the lookup. -/
def ApiCall.isObserve : ApiCall → Bool
  | .observe _ => true
  | _ => false

/-- Whether a call is a mutation (create or delete). -/
def ApiCall.isMutation : ApiCall → Bool
  | .create _ => true
  | .delete _ => true
  | _ => false

/-- The `result` dictionary reported through `exit_json`.  Every branch of
`run_module` overwrites all four entries before reporting. -/
structure ModuleResult where
  org_id : Int
  org_name : String
  msg : String
  changed : Bool
  deriving Repr, DecidableEq

/-- How `run_module` ends: `exit_json(failed=False, **result)` on success,
or `fail_json(failed=True, msg="error : %s" % e)` when an exception is
caught. -/
inductive ModuleOutcome where
  | exit (result : ModuleResult)
  | fail (msg : String)
  deriving Repr, DecidableEq

/-- `run_module()` after argument parsing: the Observe / Decide / Act body
of the `try` block, together with the trace of `fetch_url` calls issued
(calls are recorded when made, so a call that later raises during body
parsing still appears in the trace).  `check_mode` is
`module.check_mode`, `state` is `module.params["state"]`. -/
def run_module (t : Transport) (check_mode : Bool) (state : String)
    (org_name : String) : ModuleOutcome × List ApiCall :=
  match grafana_org_exists t.getResp org_name with
  | Except.error e =>
    (ModuleOutcome.fail ("error : " ++ e), [ApiCall.observe org_name])
  | Except.ok org_exists =>
    if !check_mode then
      if state = "present" then
        if org_exists.organization_id = -1 then
          match grafana_org_create t.createResp org_name with
          | Except.error e =>
            (ModuleOutcome.fail ("error : " ++ e),
             [ApiCall.observe org_name, ApiCall.create org_name])
          | Except.ok org_create =>
            (ModuleOutcome.exit
              { org_id := org_create.organization_id
                org_name := org_create.organization_name
                msg := org_create.message
                changed := true },
             [ApiCall.observe org_name, ApiCall.create org_name])
        else
          (ModuleOutcome.exit
            { org_id := org_exists.organization_id
              org_name := org_exists.organization_name
              msg := "Organization exists"
              changed := false },
           [ApiCall.observe org_name])
      else
        if org_exists.organization_id ≠ -1 then
          match grafana_org_delete t.deleteResp org_name
              org_exists.organization_id with
          | Except.error e =>
            (ModuleOutcome.fail ("error : " ++ e),
             [ApiCall.observe org_name,
              ApiCall.delete org_exists.organization_id])
          | Except.ok org_delete =>
            (ModuleOutcome.exit
              { org_id := org_exists.organization_id
                org_name := org_delete.organization_name
                msg := org_delete.message
                changed := true },
             [ApiCall.observe org_name,
              ApiCall.delete org_exists.organization_id])
        else
          (ModuleOutcome.exit
            { org_id := org_exists.organization_id
              org_name := org_exists.organization_name
              msg := "Organization does not exists"
              changed := false },
           [ApiCall.observe org_name])
    else
      if state = "present" then
        if org_exists.organization_id = -1 then
          (ModuleOutcome.exit
            { org_id := org_exists.organization_id
              org_name := org_exists.organization_name
              msg := "Running in check mode...Organization will be created. Organization ID will be defined at creation "
              changed := true },
           [ApiCall.observe org_name])
        else
          (ModuleOutcome.exit
            { org_id := org_exists.organization_id
              org_name := org_exists.organization_name
              msg := "Organization already exists"
              changed := false },
           [ApiCall.observe org_name])
      else
        if org_exists.organization_id ≠ -1 then
          (ModuleOutcome.exit
            { org_id := org_exists.organization_id
              org_name := org_exists.organization_name
              msg := "Running in check mode...Organization will be deleted."
              changed := true },
           [ApiCall.observe org_name])
        else
          (ModuleOutcome.exit
            { org_id := org_exists.organization_id
              org_name := org_exists.organization_name
              msg := "Organization does not exists"
              changed := false },
           [ApiCall.observe org_name])

/-! Concrete responses and transports used by the witness theorems. -/

/-- A 200 lookup response whose body is `\x7bid: 7, name: "acme"\x7d`. -/
def respFound : FetchResult :=
  ⟨some (Except.ok ⟨some 7, some "acme", none, none⟩), 200, none⟩

/-- A 404 lookup response: no readable object, `info["body"]` parses to
`\x7bmessage: "Organization not found"\x7d`. -/
def respNotFound : FetchResult :=
  ⟨none, 404, some (Except.ok ⟨none, none, none, some "Organization not found"⟩)⟩

/-- A connection-level failure: no readable object, no `info["body"]`,
status `-1`. -/
def respConnFail : FetchResult := ⟨none, -1, none⟩

/-- A 200 create response whose body is
`\x7borgId: 9, message: "Organization created"\x7d`. -/
def respCreated : FetchResult :=
  ⟨some (Except.ok ⟨none, none, some 9, some "Organization created"⟩), 200, none⟩

/-- A 200 delete response whose body is
`\x7bmessage: "Organization deleted"\x7d`. -/
def respDeleted : FetchResult :=
  ⟨some (Except.ok ⟨none, none, none, some "Organization deleted"⟩), 200, none⟩

/-- A 412 create failure whose `info["body"]` carries a message. -/
def respCreateFail : FetchResult :=
  ⟨none, 412, some (Except.ok ⟨none, none, none, some "Organization name taken"⟩)⟩

/-- A 500 delete failure whose `info["body"]` carries a message. -/
def respDeleteFail : FetchResult :=
  ⟨none, 500, some (Except.ok ⟨none, none, none, some "Could not delete"⟩)⟩

/-- A 500 response whose readable body is not valid JSON. -/
def respMalformed : FetchResult :=
  ⟨some (Except.error "Expecting value: line 1 column 1 (char 0)"), 500, none⟩

/-- A 404 response whose readable body is a JSON object with no
`message` key. -/
def respNoMessage : FetchResult :=
  ⟨some (Except.ok ⟨none, none, none, none⟩), 404, none⟩

/-- Transport for the create scenario: lookup 404, create succeeds. -/
def tCreate : Transport := ⟨respNotFound, respCreated, respDeleted⟩

/-- Transport for the delete scenario: lookup finds id 7, delete succeeds. -/
def tDelete : Transport := ⟨respFound, respCreated, respDeleted⟩

/-- Transport whose lookup fails at connection level. -/
def tConnFail : Transport := ⟨respConnFail, respCreated, respDeleted⟩

/-- Transport whose mutation endpoints both answer non-200 with a
well-formed error body; lookup answers 404 for the create path. -/
def tMutFailAbsent : Transport := ⟨respNotFound, respCreateFail, respDeleteFail⟩

/-- Same mutation failures as `tMutFailAbsent`, lookup finds id 7. -/
def tMutFailFound : Transport := ⟨respFound, respCreateFail, respDeleteFail⟩

/-- Transport whose create response is malformed JSON, after a 404 lookup. -/
def tCreateMalformed : Transport := ⟨respNotFound, respMalformed, respDeleted⟩

/-- Transport whose delete response is non-200, after a 200 lookup. -/
def tDeleteFail : Transport := ⟨respFound, respCreated, respDeleteFail⟩

/-! Helper lemmas shared by several claim proofs. -/

/-- Reduction of `grafana_org_create` on a 200 response whose body has
`orgId` and `message` keys. -/
theorem grafana_org_create_ok200 (res : FetchResult) (org_name : String)
    (body : JsonObj) (oid : Int) (m : String)
    (h200 : res.status = 200)
    (hBody : loadsBody res fallbackCreateBody = Except.ok body)
    (hOid : body.orgId = some oid)
    (hMsg : body.message = some m) :
    grafana_org_create res org_name =
      Except.ok ⟨oid, org_name, res.status, m⟩ := by
  unfold grafana_org_create
  rw [hBody]
  simp [h200, JsonObj.getOrgId, JsonObj.getMessage, hOid, hMsg]

/-- Reduction of `grafana_org_create` on a non-200 response whose body has
a `message` key. -/
theorem grafana_org_create_fail (res : FetchResult) (org_name : String)
    (body : JsonObj) (m : String)
    (hStatus : res.status ≠ 200)
    (hBody : loadsBody res fallbackCreateBody = Except.ok body)
    (hMsg : body.message = some m) :
    grafana_org_create res org_name =
      Except.ok ⟨-1, org_name, res.status, m⟩ := by
  unfold grafana_org_create
  rw [hBody]
  simp [hStatus, JsonObj.getMessage, hMsg]

/-- Reduction of `grafana_org_delete` on a non-200 response whose body has
a `message` key. -/
theorem grafana_org_delete_fail (res : FetchResult) (org_name : String)
    (org_id : Int) (body : JsonObj) (m : String)
    (hStatus : res.status ≠ 200)
    (hBody : loadsBody res fallbackDeleteBody = Except.ok body)
    (hMsg : body.message = some m) :
    grafana_org_delete res org_name org_id =
      Except.ok ⟨-1, org_name, res.status, m⟩ := by
  unfold grafana_org_delete
  rw [hBody]
  simp [hStatus, JsonObj.getMessage, hMsg]

/-- Claim C1: with `state=present`, check mode off, and the lookup
reporting the organization absent (observed id = -1), `run_module` issues
exactly one Create call after the single Observe and exits with
`changed = true`, `org_id` taken from the `orgId` field of the Create
response body, and `org_name` echoed as supplied. -/
theorem claim_C1 (t : Transport) (org_name : String)
    (oe : GrafanaOrganization) (body : JsonObj) (oid : Int) (m : String)
    (hObs : grafana_org_exists t.getResp org_name = Except.ok oe)
    (hAbsent : oe.organization_id = -1)
    (h200 : t.createResp.status = 200)
    (hBody : loadsBody t.createResp fallbackCreateBody = Except.ok body)
    (hOid : body.orgId = some oid)
    (hMsg : body.message = some m) :
    run_module t false "present" org_name =
      (ModuleOutcome.exit ⟨oid, org_name, m, true⟩,
       [ApiCall.observe org_name, ApiCall.create org_name]) := by
  have hc := grafana_org_create_ok200 t.createResp org_name body oid m
    h200 hBody hOid hMsg
  unfold run_module
  rw [hObs]
  simp [hAbsent, hc]

/-- Witness for C1: the spec scenario — lookup 404, create succeeds with
new id 9. -/
theorem claim_C1_witness :
    run_module tCreate false "present" "acme" =
      (ModuleOutcome.exit ⟨9, "acme", "Organization created", true⟩,
       [ApiCall.observe "acme", ApiCall.create "acme"]) :=
  claim_C1 tCreate "acme" ⟨-1, "acme", 404, "Organization not found"⟩
    ⟨none, none, some 9, some "Organization created"⟩ 9 "Organization created"
    rfl rfl rfl rfl rfl rfl

/-- Claim C2: in check mode no Create or Delete call is ever issued; the
reported `org_id`/`org_name` are the observed pre-change values, and
`changed = true` exactly when a mutation would have been warranted
(present and absent, or absent and present). -/
theorem claim_C2 (t : Transport) (state org_name : String)
    (oe : GrafanaOrganization)
    (hObs : grafana_org_exists t.getResp org_name = Except.ok oe) :
    (run_module t true state org_name).2 = [ApiCall.observe org_name] ∧
    ∃ r, (run_module t true state org_name).1 = ModuleOutcome.exit r ∧
      r.org_id = oe.organization_id ∧ r.org_name = oe.organization_name ∧
      (r.changed = true ↔
        ((state = "present" ∧ oe.organization_id = -1) ∨
         (state ≠ "present" ∧ oe.organization_id ≠ -1))) := by
  unfold run_module
  rw [hObs]
  by_cases hs : state = "present" <;>
    by_cases hid : oe.organization_id = -1 <;>
      simp [hs, hid]

/-- Witness for C2: check mode with `state=absent` on an existing
organization issues only the lookup and reports the observed id 7. -/
theorem claim_C2_witness :
    (run_module tDelete true "absent" "acme").2 = [ApiCall.observe "acme"] ∧
    ∃ r, (run_module tDelete true "absent" "acme").1 = ModuleOutcome.exit r ∧
      r.org_id = 7 ∧ r.org_name = "acme" ∧
      (r.changed = true ↔
        (("absent" = "present" ∧ (7 : Int) = -1) ∨
         (("absent" : String) ≠ "present" ∧ (7 : Int) ≠ -1))) :=
  claim_C2 tDelete "absent" "acme" ⟨7, "acme", 200, "Organization exists"⟩ rfl

/-- Claim C3: with `state=absent`, check mode off, and the lookup finding
the organization (observed id different from -1), `run_module` issues
exactly one Delete call addressed by the observed id and exits with
`changed = true`. -/
theorem claim_C3 (t : Transport) (org_name : String)
    (oe od : GrafanaOrganization)
    (hObs : grafana_org_exists t.getResp org_name = Except.ok oe)
    (hFound : oe.organization_id ≠ -1)
    (hDel : grafana_org_delete t.deleteResp org_name oe.organization_id =
      Except.ok od) :
    run_module t false "absent" org_name =
      (ModuleOutcome.exit
        ⟨oe.organization_id, od.organization_name, od.message, true⟩,
       [ApiCall.observe org_name, ApiCall.delete oe.organization_id]) := by
  unfold run_module
  rw [hObs]
  simp [hFound, hDel]

/-- Witness for C3: the spec scenario — lookup returns 200 with id 7,
Delete(7) is called, the result has `changed = true`. -/
theorem claim_C3_witness :
    run_module tDelete false "absent" "acme" =
      (ModuleOutcome.exit ⟨7, "acme", "Organization deleted", true⟩,
       [ApiCall.observe "acme", ApiCall.delete 7]) :=
  claim_C3 tDelete "acme" ⟨7, "acme", 200, "Organization exists"⟩
    ⟨7, "acme", 200, "Organization deleted"⟩ rfl (by decide) rfl

/-- Claim C4: when the observed state already matches the desired state
(present with id found, or absent with id = -1), `run_module` reports
`changed = false` and issues zero Create or Delete calls, whatever the
check-mode flag. -/
theorem claim_C4 (t : Transport) (check_mode : Bool) (state org_name : String)
    (oe : GrafanaOrganization)
    (hObs : grafana_org_exists t.getResp org_name = Except.ok oe)
    (hMatch : (state = "present" ∧ oe.organization_id ≠ -1) ∨
      (state ≠ "present" ∧ oe.organization_id = -1)) :
    (run_module t check_mode state org_name).2 = [ApiCall.observe org_name] ∧
    ∃ r, (run_module t check_mode state org_name).1 = ModuleOutcome.exit r ∧
      r.changed = false := by
  unfold run_module
  rw [hObs]
  rcases hMatch with ⟨hs, hid⟩ | ⟨hs, hid⟩ <;> cases check_mode <;>
    simp [hs, hid]

/-- Witness for C4: `state=present` on an already-existing organization,
check mode off — only the lookup runs and `changed = false`. -/
theorem claim_C4_witness :
    (run_module tDelete false "present" "acme").2 = [ApiCall.observe "acme"] ∧
    ∃ r, (run_module tDelete false "present" "acme").1 =
      ModuleOutcome.exit r ∧ r.changed = false :=
  claim_C4 tDelete false "present" "acme" ⟨7, "acme", 200, "Organization exists"⟩
    rfl (Or.inl ⟨rfl, by decide⟩)

/-- Counterexample to claim C5 as stated: on a 404 lookup whose readable
body is a JSON object with no `message` key, the lookup does not fall back
to a fixed string — `body["message"]` raises a `KeyError`, so the result
is an exception, not an absent-resource value carrying the fallback
message. -/
theorem claim_C5_counterexample :
    grafana_org_exists respNoMessage "acme" =
      Except.error "KeyError: message" ∧
    grafana_org_exists respNoMessage "acme" ≠
      Except.ok ⟨-1, "acme", 404, "Cannot search organization"⟩ :=
  ⟨rfl, by decide⟩

/-- Claim C5 (amended): on any non-200 lookup status, when the body in use
(the readable response body, the `info` body, or — when neither exists —
the fallback body carrying "Cannot search organization") has a `message`
key, the resource is treated as absent with id = -1 and that key's value
is the returned message. -/
theorem claim_C5 (res : FetchResult) (org_name : String) (body : JsonObj)
    (m : String)
    (hStatus : res.status ≠ 200)
    (hBody : loadsBody res fallbackSearchBody = Except.ok body)
    (hMsg : body.message = some m) :
    grafana_org_exists res org_name =
      Except.ok ⟨-1, org_name, res.status, m⟩ := by
  unfold grafana_org_exists
  rw [hBody]
  simp [hStatus, JsonObj.getMessage, hMsg]

/-- Witness for C5: a 404 lookup whose `info` body carries a message. -/
theorem claim_C5_witness :
    grafana_org_exists respNotFound "acme" =
      Except.ok ⟨-1, "acme", 404, "Organization not found"⟩ :=
  claim_C5 respNotFound "acme"
    ⟨none, none, none, some "Organization not found"⟩ "Organization not found"
    (by decide) rfl rfl

/-- Claim C6: when the transport returns no readable response object and
no `info` body (connection-level failure, hence a non-200 status), the
lookup does not raise: it degrades to "not found" with id = -1 and the
fallback message "Cannot search organization", and the invocation
completes through `exit_json` rather than aborting fatally (shown here
for the check-mode create path and for the `state=absent` path, neither
of which issues a further call). -/
theorem claim_C6 (t : Transport) (org_name : String)
    (hConn : t.getResp.r = none)
    (hNoBody : t.getResp.infoBody = none)
    (hStatus : t.getResp.status ≠ 200) :
    grafana_org_exists t.getResp org_name =
      Except.ok ⟨-1, org_name, t.getResp.status,
        "Cannot search organization"⟩ ∧
    (run_module t true "present" org_name).1 =
      ModuleOutcome.exit ⟨-1, org_name,
        "Running in check mode...Organization will be created. Organization ID will be defined at creation ",
        true⟩ ∧
    (run_module t false "absent" org_name).1 =
      ModuleOutcome.exit
        ⟨-1, org_name, "Organization does not exists", false⟩ := by
  have hobs : grafana_org_exists t.getResp org_name =
      Except.ok ⟨-1, org_name, t.getResp.status,
        "Cannot search organization"⟩ := by
    unfold grafana_org_exists loadsBody
    rw [hConn, hNoBody]
    simp [hStatus, JsonObj.getMessage, fallbackSearchBody]
  refine ⟨hobs, ?_, ?_⟩
  · unfold run_module
    rw [hobs]
    simp
  · unfold run_module
    rw [hobs]
    simp

/-- Witness for C6: the connection-failure transport. -/
theorem claim_C6_witness :
    grafana_org_exists tConnFail.getResp "acme" =
      Except.ok ⟨-1, "acme", tConnFail.getResp.status,
        "Cannot search organization"⟩ ∧
    (run_module tConnFail true "present" "acme").1 =
      ModuleOutcome.exit ⟨-1, "acme",
        "Running in check mode...Organization will be created. Organization ID will be defined at creation ",
        true⟩ ∧
    (run_module tConnFail false "absent" "acme").1 =
      ModuleOutcome.exit
        ⟨-1, "acme", "Organization does not exists", false⟩ :=
  claim_C6 tConnFail "acme" rfl rfl (by decide)

/-- Counterexample to claim C7 as stated: a Create call that receives a
non-200 status (here 500) whose body is malformed JSON does raise — the
invocation aborts through `fail_json` instead of completing structurally
as a success with `changed = true`. -/
theorem claim_C7_counterexample :
    (run_module tCreateMalformed false "present" "acme").1 =
      ModuleOutcome.fail "error : Expecting value: line 1 column 1 (char 0)" ∧
    (run_module tCreateMalformed false "present" "acme").2 =
      [ApiCall.observe "acme", ApiCall.create "acme"] :=
  ⟨rfl, rfl⟩

/-- Claim C7 (amended): when Create or Delete receives a non-200 status
and the body in use parses as JSON with a `message` key, no exception is
raised and the invocation completes structurally as a success: the
failure is surfaced only through the message field while the result still
reports `changed = true`. -/
theorem claim_C7 (t : Transport) (org_name : String)
    (oe : GrafanaOrganization) (bodyC bodyD : JsonObj) (mC mD : String)
    (hObs : grafana_org_exists t.getResp org_name = Except.ok oe)
    (hCStatus : t.createResp.status ≠ 200)
    (hCBody : loadsBody t.createResp fallbackCreateBody = Except.ok bodyC)
    (hCMsg : bodyC.message = some mC)
    (hDStatus : t.deleteResp.status ≠ 200)
    (hDBody : loadsBody t.deleteResp fallbackDeleteBody = Except.ok bodyD)
    (hDMsg : bodyD.message = some mD) :
    (oe.organization_id = -1 →
      run_module t false "present" org_name =
        (ModuleOutcome.exit ⟨-1, org_name, mC, true⟩,
         [ApiCall.observe org_name, ApiCall.create org_name])) ∧
    (oe.organization_id ≠ -1 →
      run_module t false "absent" org_name =
        (ModuleOutcome.exit ⟨oe.organization_id, org_name, mD, true⟩,
         [ApiCall.observe org_name,
          ApiCall.delete oe.organization_id])) := by
  constructor
  · intro hid
    have hc := grafana_org_create_fail t.createResp org_name bodyC mC
      hCStatus hCBody hCMsg
    unfold run_module
    rw [hObs]
    simp [hid, hc]
  · intro hid
    have hd := grafana_org_delete_fail t.deleteResp org_name
      oe.organization_id bodyD mD hDStatus hDBody hDMsg
    unfold run_module
    rw [hObs]
    simp [hid, hd]

/-- Witness for C7: lookup finds id 7 and the Delete endpoint answers 500
with an error body — the invocation still exits with `changed = true` and
the failure only in the message. -/
theorem claim_C7_witness :
    (((⟨7, "acme", 200, "Organization exists"⟩ :
        GrafanaOrganization).organization_id = -1) →
      run_module tMutFailFound false "present" "acme" =
        (ModuleOutcome.exit ⟨-1, "acme", "Organization name taken", true⟩,
         [ApiCall.observe "acme", ApiCall.create "acme"])) ∧
    (((⟨7, "acme", 200, "Organization exists"⟩ :
        GrafanaOrganization).organization_id ≠ -1) →
      run_module tMutFailFound false "absent" "acme" =
        (ModuleOutcome.exit ⟨7, "acme", "Could not delete", true⟩,
         [ApiCall.observe "acme", ApiCall.delete 7])) :=
  claim_C7 tMutFailFound "acme" ⟨7, "acme", 200, "Organization exists"⟩
    ⟨none, none, none, some "Organization name taken"⟩
    ⟨none, none, none, some "Could not delete"⟩
    "Organization name taken" "Could not delete"
    rfl (by decide) rfl rfl (by decide) rfl rfl

/-- Every invocation's call trace is the lookup alone, the lookup followed
by one Create, or the lookup followed by one Delete. -/
theorem run_module_trace_cases (t : Transport) (check_mode : Bool)
    (state org_name : String) :
    (run_module t check_mode state org_name).2 = [ApiCall.observe org_name] ∨
    (run_module t check_mode state org_name).2 =
      [ApiCall.observe org_name, ApiCall.create org_name] ∨
    ∃ i, (run_module t check_mode state org_name).2 =
      [ApiCall.observe org_name, ApiCall.delete i] := by
  unfold run_module
  cases hobs : grafana_org_exists t.getResp org_name with
  | error e => simp
  | ok oe =>
    cases check_mode with
    | true =>
      by_cases hs : state = "present" <;>
        by_cases hid : oe.organization_id = -1 <;> simp [hs, hid]
    | false =>
      by_cases hs : state = "present" <;>
        by_cases hid : oe.organization_id = -1
      · cases hc : grafana_org_create t.createResp org_name <;>
          simp [hs, hid]
      · simp [hs, hid]
      · simp [hs, hid]
      · cases hd : grafana_org_delete t.deleteResp org_name
            oe.organization_id <;> simp [hs, hid, hd]

/-- Claim C8: each invocation performs exactly one Observe call and at
most one Create-or-Delete call, and when a mutation is warranted with
check mode off the corresponding mutating call does appear in the
trace. -/
theorem claim_C8 (t : Transport) (check_mode : Bool) (state org_name : String)
    (oe : GrafanaOrganization)
    (hObs : grafana_org_exists t.getResp org_name = Except.ok oe) :
    ((run_module t check_mode state org_name).2.countP
      (fun c => c.isObserve) = 1) ∧
    ((run_module t check_mode state org_name).2.countP
      (fun c => c.isMutation) ≤ 1) ∧
    (check_mode = false → state = "present" → oe.organization_id = -1 →
      ApiCall.create org_name ∈ (run_module t check_mode state org_name).2) ∧
    (check_mode = false → state ≠ "present" → oe.organization_id ≠ -1 →
      ApiCall.delete oe.organization_id ∈
        (run_module t check_mode state org_name).2) := by
  refine ⟨?_, ?_, ?_, ?_⟩
  · rcases run_module_trace_cases t check_mode state org_name with
      h | h | ⟨i, h⟩ <;>
      simp [h, List.countP_cons, ApiCall.isObserve, ApiCall.isMutation]
  · rcases run_module_trace_cases t check_mode state org_name with
      h | h | ⟨i, h⟩ <;>
      simp [h, List.countP_cons, ApiCall.isObserve, ApiCall.isMutation]
  · intro hcm hs hid
    subst hcm
    unfold run_module
    rw [hObs]
    cases hc : grafana_org_create t.createResp org_name <;>
      simp [hs, hid]
  · intro hcm hs hid
    subst hcm
    unfold run_module
    rw [hObs]
    cases hd : grafana_org_delete t.deleteResp org_name
        oe.organization_id <;> simp [hs, hid, hd]

/-- Witness for C8: the create scenario — one Observe, one Create, and the
warranted Create is indeed in the trace. -/
theorem claim_C8_witness :
    ((run_module tCreate false "present" "acme").2.countP
      (fun c => c.isObserve) = 1) ∧
    ((run_module tCreate false "present" "acme").2.countP
      (fun c => c.isMutation) ≤ 1) ∧
    (false = false → "present" = "present" →
      ((⟨-1, "acme", 404, "Organization not found"⟩ :
        GrafanaOrganization).organization_id = -1) →
      ApiCall.create "acme" ∈ (run_module tCreate false "present" "acme").2) ∧
    (false = false → ("present" : String) ≠ "present" →
      ((⟨-1, "acme", 404, "Organization not found"⟩ :
        GrafanaOrganization).organization_id ≠ -1) →
      ApiCall.delete (-1) ∈ (run_module tCreate false "present" "acme").2) :=
  claim_C8 tCreate false "present" "acme"
    ⟨-1, "acme", 404, "Organization not found"⟩ rfl

/-- Claim C9: an exception raised during Observe, Create or Delete aborts
the whole invocation with a single `fail_json` whose message carries the
exception text, and no partial result is reported. -/
theorem claim_C9 (t : Transport) (check_mode : Bool) (state org_name : String)
    (e eC eD : String) (oe : GrafanaOrganization) :
    (grafana_org_exists t.getResp org_name = Except.error e →
      run_module t check_mode state org_name =
        (ModuleOutcome.fail ("error : " ++ e),
         [ApiCall.observe org_name])) ∧
    (grafana_org_exists t.getResp org_name = Except.ok oe →
      oe.organization_id = -1 →
      grafana_org_create t.createResp org_name = Except.error eC →
      run_module t false "present" org_name =
        (ModuleOutcome.fail ("error : " ++ eC),
         [ApiCall.observe org_name, ApiCall.create org_name])) ∧
    (grafana_org_exists t.getResp org_name = Except.ok oe →
      oe.organization_id ≠ -1 →
      grafana_org_delete t.deleteResp org_name oe.organization_id =
        Except.error eD →
      run_module t false "absent" org_name =
        (ModuleOutcome.fail ("error : " ++ eD),
         [ApiCall.observe org_name,
          ApiCall.delete oe.organization_id])) := by
  refine ⟨?_, ?_, ?_⟩
  · intro h
    unfold run_module
    rw [h]
  · intro hobs hid hc
    unfold run_module
    rw [hobs]
    simp [hid, hc]
  · intro hobs hid hd
    unfold run_module
    rw [hobs]
    simp [hid, hd]

/-- Witness for C9: a 404 lookup followed by a Create whose response body
is malformed JSON — the invocation fails with the exception text. -/
theorem claim_C9_witness :
    (grafana_org_exists tCreateMalformed.getResp "acme" =
        Except.error "boom" →
      run_module tCreateMalformed false "present" "acme" =
        (ModuleOutcome.fail ("error : " ++ "boom"),
         [ApiCall.observe "acme"])) ∧
    (grafana_org_exists tCreateMalformed.getResp "acme" =
        Except.ok ⟨-1, "acme", 404, "Organization not found"⟩ →
      ((⟨-1, "acme", 404, "Organization not found"⟩ :
        GrafanaOrganization).organization_id = -1) →
      grafana_org_create tCreateMalformed.createResp "acme" =
        Except.error "Expecting value: line 1 column 1 (char 0)" →
      run_module tCreateMalformed false "present" "acme" =
        (ModuleOutcome.fail
          ("error : " ++ "Expecting value: line 1 column 1 (char 0)"),
         [ApiCall.observe "acme", ApiCall.create "acme"])) ∧
    (grafana_org_exists tCreateMalformed.getResp "acme" =
        Except.ok ⟨-1, "acme", 404, "Organization not found"⟩ →
      ((⟨-1, "acme", 404, "Organization not found"⟩ :
        GrafanaOrganization).organization_id ≠ -1) →
      grafana_org_delete tCreateMalformed.deleteResp "acme"
          (⟨-1, "acme", 404, "Organization not found"⟩ :
            GrafanaOrganization).organization_id =
        Except.error "y" →
      run_module tCreateMalformed false "absent" "acme" =
        (ModuleOutcome.fail ("error : " ++ "y"),
         [ApiCall.observe "acme", ApiCall.delete (-1)])) :=
  claim_C9 tCreateMalformed false "present" "acme"
    "boom" "Expecting value: line 1 column 1 (char 0)" "y"
    ⟨-1, "acme", 404, "Organization not found"⟩

/-- On a non-200 delete response that parses with a `message` key absent
or present, a successful (non-raising) delete result always carries
organization id -1. -/
theorem grafana_org_delete_fail_id (res : FetchResult) (org_name : String)
    (org_id : Int) (od : GrafanaOrganization)
    (hStatus : res.status ≠ 200)
    (hDel : grafana_org_delete res org_name org_id = Except.ok od) :
    od.organization_id = -1 := by
  unfold grafana_org_delete at hDel
  rcases hb : loadsBody res fallbackDeleteBody with e | body <;>
    rw [hb] at hDel
  · simp at hDel
  · rcases hm : body.getMessage with e2 | m <;>
      simp [hStatus, hm] at hDel
    rw [← hDel]

/-- Claim C10: with `state=absent`, check mode off, and a found
organization, the reported `org_id` is always the observed pre-delete id;
even when the Delete response is non-200 (its own id being -1), the -1 is
discarded, so on this path `changed = true` comes with an `org_id` that
is never -1. -/
theorem claim_C10 (t : Transport) (org_name : String)
    (oe od : GrafanaOrganization)
    (hObs : grafana_org_exists t.getResp org_name = Except.ok oe)
    (hFound : oe.organization_id ≠ -1)
    (hDel : grafana_org_delete t.deleteResp org_name oe.organization_id =
      Except.ok od) :
    ∃ r, (run_module t false "absent" org_name).1 = ModuleOutcome.exit r ∧
      r.org_id = oe.organization_id ∧ r.changed = true ∧ r.org_id ≠ -1 ∧
      (t.deleteResp.status ≠ 200 → od.organization_id = -1) := by
  refine ⟨⟨oe.organization_id, od.organization_name, od.message, true⟩,
    ?_, rfl, rfl, hFound, ?_⟩
  · unfold run_module
    rw [hObs]
    simp [hFound, hDel]
  · intro hst
    exact grafana_org_delete_fail_id t.deleteResp org_name
      oe.organization_id od hst hDel

/-- Witness for C10: lookup finds id 7, the Delete endpoint answers 500 —
the reported id is still 7, not the -1 of the failed delete step. -/
theorem claim_C10_witness :
    ∃ r, (run_module tDeleteFail false "absent" "acme").1 =
        ModuleOutcome.exit r ∧
      r.org_id = (7 : Int) ∧ r.changed = true ∧ r.org_id ≠ -1 ∧
      (tDeleteFail.deleteResp.status ≠ 200 →
        ((⟨-1, "acme", 500, "Could not delete"⟩ :
          GrafanaOrganization).organization_id = -1)) :=
  claim_C10 tDeleteFail "acme" ⟨7, "acme", 200, "Organization exists"⟩
    ⟨-1, "acme", 500, "Could not delete"⟩ rfl (by decide) rfl
